import Mathlib

/-!
Verification development for the MongoDB -> Azure Data Lake migration script
(src/iac/mongo/elt_mongodb_n_collections.py).  The script is embedded
shallowly: documents and collections are explicit data, pandas column
inference and the identity-field drop are modelled as pure functions, the
per-collection try/except loop is a fold over the discovered collections,
and exceptions raised by external services are modelled as explicit fault
injections at each call site the script performs.
-/

namespace Elt

/-- A record document from the source store: an ordered mapping from field
name to a value (values rendered as strings; only field names matter for the
properties verified here). -/
structure Doc where
  fields : List (String × String)
  deriving Repr, DecidableEq

/-- The store-internal identity field name dropped by the script (the Mongo
field named in the source at line 132). -/
def idField : String := "_id"

/-- Insert a column name into an accumulator if not already present, keeping
first-seen order (pandas column-union behaviour over a list of dicts). -/
def insertCol (acc : List String) (k : String) : List String :=
  if k ∈ acc then acc else acc ++ [k]

/-- Column inference of pd.DataFrame(list(cursor)): the union of the field
names seen across all rows, in first-seen order. -/
def dfColumns (docs : List Doc) : List String :=
  docs.foldl (fun acc d => d.fields.foldl (fun a kv => insertCol a kv.1) acc) []

/-- Model of the conditional identity-column drop at source lines 132-133:
if the identity field is a column, remove it, else keep the columns as is. -/
def dropId (cols : List String) : List String :=
  if idField ∈ cols then cols.filter (fun c => c != idField) else cols

/-- The column set of the serialized payload for a batch of documents. -/
def payloadColumns (docs : List Doc) : List String :=
  dropId (dfColumns docs)

/-- Value of a cell: the first value stored under the column name, empty
when the row lacks the field (pandas renders missing cells as empty in csv). -/
def csvCell (d : Doc) (k : String) : String :=
  match d.fields.lookup k with
  | Option.some v => v
  | Option.none => ""

/-- One serialized csv row for a document under a fixed column list. -/
def csvRow (cols : List String) (d : Doc) : String :=
  String.intercalate "," (cols.map (csvCell d))

/-- Model of df.to_csv(index=False): a header row naming the payload columns
followed by one row per document. -/
def toCsv (docs : List Doc) : String :=
  String.intercalate "," (payloadColumns docs) ++ "\n"
    ++ String.join (docs.map (fun d => csvRow (payloadColumns docs) d ++ "\n"))

/-- The sub-stages of one collection's processing at which the external
services can raise an exception inside the per-unit try block. -/
inductive UnitStage where
  | count
  | find
  | toCsvStage
  | upload
  deriving Repr, DecidableEq

/-- Exception kinds distinguished by the script's except clauses. -/
inductive Exc where
  | resourceExists
  | resourceNotFound
  | clientAuth
  | connectionFailure
  | operationFailure
  | generic
  deriving Repr, DecidableEq

/-- Fault injection for one collection: either its processing raises no
exception, or the first time execution reaches the given sub-stage an
exception of the given kind is raised there. -/
inductive UnitFault where
  | none
  | raise (s : UnitStage) (e : Exc)
  deriving Repr, DecidableEq

/-- Whether the fault fires at the given stage. -/
def faultAt : UnitFault → UnitStage → Bool
  | UnitFault.none, _ => false
  | UnitFault.raise s _, s2 => s == s2

/-- One discovered collection: its name, its documents, and the fault its
processing would encounter. -/
structure Collection where
  name : String
  docs : List Doc
  fault : UnitFault
  deriving Repr, DecidableEq

/-- Outcome of one iteration of the per-collection loop. -/
inductive UnitOutcome where
  | skippedEmpty
  | skippedNoData
  | success
  | failed
  deriving Repr, DecidableEq

/-- One iteration of the per-collection loop (source lines 114-150), with the
control flow of the try block: count the documents (a raise here is caught,
the unit fails); zero documents short-circuits to a skip; read the documents
(a raise fails the unit); drop the identity column; an empty frame
short-circuits to a skip; serialize and upload (a raise at either fails the
unit); otherwise the unit succeeds. -/
def processUnit (c : Collection) : UnitOutcome :=
  if faultAt c.fault UnitStage.count then UnitOutcome.failed
  else if c.docs.length = 0 then UnitOutcome.skippedEmpty
  else if faultAt c.fault UnitStage.find then UnitOutcome.failed
  else if c.docs.isEmpty || (payloadColumns c.docs).isEmpty then UnitOutcome.skippedNoData
  else if faultAt c.fault UnitStage.toCsvStage then UnitOutcome.failed
  else if faultAt c.fault UnitStage.upload then UnitOutcome.failed
  else UnitOutcome.success

/-- The outcomes of a list of collections, in processing order. -/
def outcomesOf (cols : List Collection) : List UnitOutcome :=
  cols.map processUnit

/-- Destination file write with overwrite=True (source line 143): replace the
payload stored at the path if a file already exists there, else create it. -/
def uploadData : List (String × String) → String → String → List (String × String)
  | [], path, payload => [(path, payload)]
  | e :: rest, path, payload =>
      if e.1 == path then (path, payload) :: rest
      else e :: uploadData rest path payload

/-- Destination path of one collection's file inside the batch directory
(source line 141: the file named collection_name.csv under the directory). -/
def unitFilePath (dir nm : String) : String :=
  dir ++ "/" ++ nm ++ ".csv"

/-- Mutable state of the per-collection loop: the two counters declared at
source lines 111-112, the destination file system contents, and the trace of
per-unit outcomes. -/
structure LoopState where
  successful : Nat
  failed : Nat
  fs : List (String × String)
  outcomes : List UnitOutcome
  deriving Repr, DecidableEq

def initState : LoopState := ⟨0, 0, [], []⟩

/-- Effect of one loop iteration on the loop state. -/
def stepUnit (dir : String) (st : LoopState) (c : Collection) : LoopState :=
  match processUnit c with
  | UnitOutcome.success =>
      ⟨st.successful + 1, st.failed,
        uploadData st.fs (unitFilePath dir c.name) (toCsv c.docs),
        st.outcomes ++ [UnitOutcome.success]⟩
  | UnitOutcome.failed =>
      ⟨st.successful, st.failed + 1, st.fs, st.outcomes ++ [UnitOutcome.failed]⟩
  | o => ⟨st.successful, st.failed, st.fs, st.outcomes ++ [o]⟩

/-- The per-collection loop: a strict left-to-right traversal of the
discovered collections. -/
def runLoop (dir : String) (st : LoopState) (cols : List Collection) : LoopState :=
  cols.foldl (stepUnit dir) st

/-- Environment configuration read at source lines 40-47.  Each option is
absent or a string (possibly empty, which the script treats as missing). -/
structure Config where
  mongo_uri : Option String
  database_name : Option String
  account_name : Option String
  file_system_name : Option String
  adls_directory_name : Option String
  sas_token : Option String
  deriving Repr, DecidableEq

/-- Python truthiness test used by the missing-variable check: an option is
falsy when absent or the empty string. -/
def falsy : Option String → Bool
  | Option.none => true
  | Option.some s => s.isEmpty

/-- The required-variable table of source lines 50-56. -/
def requiredVars (cfg : Config) : List (String × Option String) :=
  [("MONGODB_URI", cfg.mongo_uri),
   ("MONGODB_DATABASE", cfg.database_name),
   ("ADLS_ACCOUNT_NAME", cfg.account_name),
   ("ADLS_FILE_SYSTEM_NAME", cfg.file_system_name),
   ("ADLS_SAS_TOKEN", cfg.sas_token)]

/-- The missing-variable list of source line 58. -/
def missingVars (cfg : Config) : List String :=
  (requiredVars cfg).filterMap (fun p => if falsy p.2 then Option.some p.1 else Option.none)

/-- The destination directory label of source line 46: the ADLS_DIRECTORY_NAME
variable when set, otherwise the database name. -/
def directoryNameStr (cfg : Config) : String :=
  match cfg.adls_directory_name with
  | Option.some s => s
  | Option.none => (cfg.database_name).getD "None"

/-- A wall-clock instant at second granularity, as sampled by the script at
source line 100. -/
structure DateTime where
  year : Nat
  month : Nat
  day : Nat
  hour : Nat
  minute : Nat
  second : Nat
  deriving Repr, DecidableEq

/-- Two zero-padded decimal digits (the %m, %d, %H, %M, %S directives). -/
def digits2 (n : Nat) : List Char :=
  [Nat.digitChar (n / 10), Nat.digitChar (n % 10)]

/-- Four zero-padded decimal digits (the %Y directive). -/
def digits4 (n : Nat) : List Char :=
  [Nat.digitChar (n / 1000), Nat.digitChar (n / 100 % 10),
   Nat.digitChar (n / 10 % 10), Nat.digitChar (n % 10)]

/-- Character stream of strftime with format %Y%m%d_%H%M%S. -/
def strftimeChars (t : DateTime) : List Char :=
  digits4 t.year ++ digits2 t.month ++ digits2 t.day
    ++ '_' :: (digits2 t.hour ++ digits2 t.minute ++ digits2 t.second)

/-- The timestamp token of source line 100. -/
def strftime (t : DateTime) : String :=
  ⟨strftimeChars t⟩

/-- Ranges within which every field of a real wall-clock instant lies; the
timestamp format is injective on these ranges. -/
def validDT (t : DateTime) : Prop :=
  t.year < 10000 ∧ t.month < 100 ∧ t.day < 100
    ∧ t.hour < 100 ∧ t.minute < 100 ∧ t.second < 100

instance validDTDecidable (t : DateTime) : Decidable (validDT t) := by
  unfold validDT
  infer_instance

/-- Fault injection for the run-level service calls the script performs
outside the per-collection loop, in the order the script reaches them. -/
structure RunFaults where
  mongoClientCtor : Option Exc
  mongoPing : Option Exc
  listCollections : Option Exc
  adlsConnect : Option Exc
  fsProps : Option Exc
  createDir : Option Exc
  deriving Repr, DecidableEq

/-- Whether the create-directory call lets the run continue: no exception, or
the ResourceExistsError absorbed at source lines 107-108. -/
def createDirOk (f : RunFaults) : Bool :=
  match f.createDir with
  | Option.none => true
  | Option.some e => e == Exc.resourceExists

/-- Observable result of one script execution: the process exit code, whether
the Mongo client was ever constructed and whether it was closed by the
finally block, whether the batch directory exists at the destination after
the run, the composed batch directory path, the two summary counters, the
per-unit outcome trace, and the files written to the destination. -/
structure RunResult where
  exitCode : Nat
  clientAcquired : Bool
  clientClosed : Bool
  dirCreated : Bool
  directoryPath : Option String
  successful : Nat
  failed : Nat
  outcomes : List UnitOutcome
  fs : List (String × String)
  deriving Repr, DecidableEq

/-- Abort before the Mongo client is bound (missing variables at line 61, or
the MongoClient constructor itself raising): exit 1, nothing acquired, the
finally block skips the close because the name is unbound. -/
def abortBeforeClient : RunResult := ⟨1, false, false, false, Option.none, 0, 0, [], []⟩

/-- Abort after the Mongo client is bound: every such path runs the finally
block, which closes the client, and exits 1. -/
def abortWithClient : RunResult := ⟨1, true, true, false, Option.none, 0, 0, [], []⟩

/-- One execution of the script over a configuration, the run-level faults,
the wall-clock instant sampled at line 100, and the discovered collections.
Control flow follows the source: the missing-variable check exits before the
try block; a raise from the MongoClient constructor, the ping, the
list-collections call, the ADLS client construction or the file-system
properties probe each aborts with exit 1 (every except clause covering them
calls sys.exit(1), and ResourceNotFoundError at the probe exits directly);
the directory creation absorbs only ResourceExistsError; the per-collection
loop then runs to completion (its catch-all except swallows every
per-unit exception), the summary is logged and the process exits 0. -/
def run (cfg : Config) (f : RunFaults) (t : DateTime) (cols : List Collection) : RunResult :=
  if (missingVars cfg).isEmpty = false then abortBeforeClient
  else if f.mongoClientCtor.isSome then abortBeforeClient
  else if f.mongoPing.isSome then abortWithClient
  else if f.listCollections.isSome then abortWithClient
  else if f.adlsConnect.isSome then abortWithClient
  else if f.fsProps.isSome then abortWithClient
  else
    let dirPath := directoryNameStr cfg ++ "/" ++ strftime t
    if createDirOk f then
      let fin := runLoop dirPath initState cols
      ⟨0, true, true, true, Option.some dirPath,
        fin.successful, fin.failed, fin.outcomes, fin.fs⟩
    else ⟨1, true, true, false, Option.some dirPath, 0, 0, [], []⟩

/-- The precondition under which the script reaches the per-collection loop:
no required variable missing, and no run-level call raising (directory
creation allowed to report the directory as already existing). -/
def setupOk (cfg : Config) (f : RunFaults) : Prop :=
  (missingVars cfg).isEmpty = true
    ∧ f.mongoClientCtor = Option.none
    ∧ f.mongoPing = Option.none
    ∧ f.listCollections = Option.none
    ∧ f.adlsConnect = Option.none
    ∧ f.fsProps = Option.none
    ∧ createDirOk f = true

instance setupOkDecidable (cfg : Config) (f : RunFaults) : Decidable (setupOk cfg f) := by
  unfold setupOk
  infer_instance

/-- An authentication failure signalled by the destination store at one of
the three call sites the script reaches before the per-collection loop. -/
def authAtSetup (f : RunFaults) : Prop :=
  f.adlsConnect = Option.some Exc.clientAuth
    ∨ (f.adlsConnect = Option.none
        ∧ (f.fsProps = Option.some Exc.clientAuth
            ∨ (f.fsProps = Option.none ∧ f.createDir = Option.some Exc.clientAuth)))

instance authAtSetupDecidable (f : RunFaults) : Decidable (authAtSetup f) := by
  unfold authAtSetup
  infer_instance

/-! Helper lemmas about the column inference, the timestamp format, the
uploader, and the loop. -/

lemma mem_insertCol (acc : List String) (k x : String) :
    x ∈ insertCol acc k ↔ x ∈ acc ∨ x = k := by
  by_cases h : k ∈ acc
  · simp only [insertCol, if_pos h]
    constructor
    · exact Or.inl
    · rintro (hx | rfl)
      · exact hx
      · exact h
  · simp [insertCol, if_neg h]

lemma mem_fields_foldl (x : String) (fs : List (String × String)) :
    ∀ acc : List String,
      x ∈ fs.foldl (fun a kv => insertCol a kv.1) acc
        ↔ x ∈ acc ∨ ∃ v, (x, v) ∈ fs := by
  induction fs with
  | nil => intro acc; simp
  | cons kv fs ih =>
      intro acc
      simp only [List.foldl_cons, ih, mem_insertCol]
      constructor
      · rintro ((hx | rfl) | ⟨v, hv⟩)
        · exact Or.inl hx
        · exact Or.inr ⟨kv.2, by simp⟩
        · exact Or.inr ⟨v, List.mem_cons_of_mem _ hv⟩
      · rintro (hx | ⟨v, hv⟩)
        · exact Or.inl (Or.inl hx)
        · rcases List.mem_cons.1 hv with h | h
          · left; right
            rcases kv with ⟨k1, v1⟩
            injection h with h1 h2
          · exact Or.inr ⟨v, h⟩

lemma mem_dfColumns (docs : List Doc) (x : String) :
    x ∈ dfColumns docs ↔ ∃ d ∈ docs, ∃ v, (x, v) ∈ d.fields := by
  suffices h : ∀ acc : List String,
      x ∈ docs.foldl (fun acc d => d.fields.foldl (fun a kv => insertCol a kv.1) acc) acc
        ↔ x ∈ acc ∨ ∃ d ∈ docs, ∃ v, (x, v) ∈ d.fields by
    simpa [dfColumns] using h []
  induction docs with
  | nil => intro acc; simp
  | cons d docs ih =>
      intro acc
      simp only [List.foldl_cons, ih, mem_fields_foldl]
      constructor
      · rintro ((hx | ⟨v, hv⟩) | ⟨d2, hd2, v, hv⟩)
        · exact Or.inl hx
        · exact Or.inr ⟨d, List.mem_cons_self d docs, v, hv⟩
        · exact Or.inr ⟨d2, List.mem_cons_of_mem _ hd2, v, hv⟩
      · rintro (hx | ⟨d2, hd2, v, hv⟩)
        · exact Or.inl (Or.inl hx)
        · rcases List.mem_cons.1 hd2 with rfl | h
          · exact Or.inl (Or.inr ⟨v, hv⟩)
          · exact Or.inr ⟨d2, h, v, hv⟩

lemma mem_dropId (cols : List String) (x : String) :
    x ∈ dropId cols ↔ x ∈ cols ∧ x ≠ idField := by
  by_cases h : idField ∈ cols
  · simp [dropId, if_pos h, List.mem_filter, bne_iff_ne]
  · simp only [dropId, if_neg h]
    constructor
    · intro hx
      refine ⟨hx, ?_⟩
      rintro rfl
      exact h hx
    · exact fun hx => hx.1

lemma digitChar_injOn : ∀ a, a < 10 → ∀ b, b < 10 →
    Nat.digitChar a = Nat.digitChar b → a = b := by decide

lemma strftimeChars_length (t : DateTime) : (strftimeChars t).length = 15 := rfl

lemma strftimeChars_inj : ∀ t t2 : DateTime, validDT t → validDT t2 →
    strftimeChars t = strftimeChars t2 → t = t2 := by
  rintro ⟨y, mo, d, hr, mi, s⟩ ⟨y2, mo2, d2, hr2, mi2, s2⟩ hv hv2 he
  obtain ⟨hy, hmo, hd, hh, hmi, hs⟩ :
      y < 10000 ∧ mo < 100 ∧ d < 100 ∧ hr < 100 ∧ mi < 100 ∧ s < 100 := hv
  obtain ⟨hy2, hmo2, hd2, hh2, hmi2, hs2⟩ :
      y2 < 10000 ∧ mo2 < 100 ∧ d2 < 100 ∧ hr2 < 100 ∧ mi2 < 100 ∧ s2 < 100 := hv2
  simp only [strftimeChars, digits4, digits2, List.cons_append, List.nil_append,
    List.cons.injEq, and_true, eq_self_iff_true, true_and] at he
  obtain ⟨e1, e2, e3, e4, e5, e6, e7, e8, e9, e10, e11, e12, e13, e14⟩ := he
  simp only [DateTime.mk.injEq]
  refine ⟨?_, ?_, ?_, ?_, ?_, ?_⟩
  · have k1 := digitChar_injOn _ (by omega) _ (by omega) e1
    have k2 := digitChar_injOn _ (by omega) _ (by omega) e2
    have k3 := digitChar_injOn _ (by omega) _ (by omega) e3
    have k4 := digitChar_injOn _ (by omega) _ (by omega) e4
    omega
  · have k1 := digitChar_injOn _ (by omega) _ (by omega) e5
    have k2 := digitChar_injOn _ (by omega) _ (by omega) e6
    omega
  · have k1 := digitChar_injOn _ (by omega) _ (by omega) e7
    have k2 := digitChar_injOn _ (by omega) _ (by omega) e8
    omega
  · have k1 := digitChar_injOn _ (by omega) _ (by omega) e9
    have k2 := digitChar_injOn _ (by omega) _ (by omega) e10
    omega
  · have k1 := digitChar_injOn _ (by omega) _ (by omega) e11
    have k2 := digitChar_injOn _ (by omega) _ (by omega) e12
    omega
  · have k1 := digitChar_injOn _ (by omega) _ (by omega) e13
    have k2 := digitChar_injOn _ (by omega) _ (by omega) e14
    omega

lemma strftime_inj (t t2 : DateTime) (h : validDT t) (h2 : validDT t2)
    (he : strftime t = strftime t2) : t = t2 :=
  strftimeChars_inj t t2 h h2 (congrArg String.data he)

lemma dirPath_ne (dn : String) (t t2 : DateTime) (h : validDT t) (h2 : validDT t2)
    (hne : t ≠ t2) : dn ++ "/" ++ strftime t ≠ dn ++ "/" ++ strftime t2 := by
  intro he
  apply hne
  apply strftime_inj t t2 h h2
  have hd := congrArg String.data he
  simp at hd
  exact String.ext hd

lemma unitFilePath_ne (dn nm : String) (t t2 : DateTime)
    (h : validDT t) (h2 : validDT t2) (hne : t ≠ t2) :
    unitFilePath (dn ++ "/" ++ strftime t) nm
      ≠ unitFilePath (dn ++ "/" ++ strftime t2) nm := by
  intro he
  apply hne
  apply strftime_inj t t2 h h2
  have hd := congrArg String.data he
  simp [unitFilePath] at hd
  exact String.ext hd

lemma uploadData_overwrite (fs : List (String × String)) (path p1 p2 : String) :
    uploadData (uploadData fs path p1) path p2 = uploadData fs path p2 := by
  induction fs with
  | nil => simp [uploadData]
  | cons e rest ih =>
      by_cases h : e.1 = path
      · simp [uploadData, h]
      · simp [uploadData, h, ih]

lemma runLoop_nil (dir : String) (st : LoopState) : runLoop dir st [] = st := rfl

lemma runLoop_cons (dir : String) (st : LoopState) (c : Collection) (cols : List Collection) :
    runLoop dir st (c :: cols) = runLoop dir (stepUnit dir st c) cols := rfl

lemma runLoop_outcomes (dir : String) (cols : List Collection) :
    ∀ st : LoopState, (runLoop dir st cols).outcomes = st.outcomes ++ outcomesOf cols := by
  induction cols with
  | nil => intro st; simp [runLoop, outcomesOf]
  | cons c cols ih =>
      intro st
      cases h : processUnit c <;>
        simp [runLoop_cons, ih, stepUnit, h, outcomesOf]

lemma runLoop_successful (dir : String) (cols : List Collection) :
    ∀ st : LoopState,
      (runLoop dir st cols).successful
        = st.successful + (outcomesOf cols).count UnitOutcome.success := by
  induction cols with
  | nil => intro st; simp [runLoop, outcomesOf]
  | cons c cols ih =>
      intro st
      cases h : processUnit c <;>
        simp [runLoop_cons, ih, stepUnit, h, outcomesOf, List.count_cons] <;> omega

lemma runLoop_failed (dir : String) (cols : List Collection) :
    ∀ st : LoopState,
      (runLoop dir st cols).failed
        = st.failed + (outcomesOf cols).count UnitOutcome.failed := by
  induction cols with
  | nil => intro st; simp [runLoop, outcomesOf]
  | cons c cols ih =>
      intro st
      cases h : processUnit c <;>
        simp [runLoop_cons, ih, stepUnit, h, outcomesOf, List.count_cons] <;> omega

lemma count_outcomes_total (l : List UnitOutcome) :
    l.count UnitOutcome.success + l.count UnitOutcome.failed
      + l.count UnitOutcome.skippedEmpty + l.count UnitOutcome.skippedNoData
      = l.length := by
  induction l with
  | nil => simp
  | cons a l ih => cases a <;> simp [List.count_cons] <;> omega

lemma run_setupOk (cfg : Config) (f : RunFaults) (t : DateTime) (cols : List Collection)
    (hok : setupOk cfg f) :
    run cfg f t cols =
      ⟨0, true, true, true, Option.some (directoryNameStr cfg ++ "/" ++ strftime t),
        (outcomesOf cols).count UnitOutcome.success,
        (outcomesOf cols).count UnitOutcome.failed,
        outcomesOf cols,
        (runLoop (directoryNameStr cfg ++ "/" ++ strftime t) initState cols).fs⟩ := by
  obtain ⟨hm, h1, h2, h3, h4, h5, h6⟩ := hok
  simp [run, hm, h1, h2, h3, h4, h5, h6, runLoop_successful, runLoop_failed,
    runLoop_outcomes, initState]

/-! Concrete fixtures used by witnesses and counterexamples. -/

/-- A configuration with every required variable set and no directory
override. -/
def cfgGood : Config :=
  ⟨Option.some "mongodb+srv://u:p@host", Option.some "mydb",
   Option.some "acct", Option.some "fsys", Option.none, Option.some "tok"⟩

/-- The same configuration with the destination directory variable set. -/
def cfgDirSet : Config :=
  ⟨Option.some "mongodb+srv://u:p@host", Option.some "mydb",
   Option.some "acct", Option.some "fsys", Option.some "data", Option.some "tok"⟩

/-- No service call raises. -/
def cleanFaults : RunFaults :=
  ⟨Option.none, Option.none, Option.none, Option.none, Option.none, Option.none⟩

/-- The ADLS client construction raises an authentication error. -/
def authFaults : RunFaults :=
  ⟨Option.none, Option.none, Option.none, Option.some Exc.clientAuth,
   Option.none, Option.none⟩

/-- The directory creation reports that the directory already exists. -/
def existFaults : RunFaults :=
  ⟨Option.none, Option.none, Option.none, Option.none, Option.none,
   Option.some Exc.resourceExists⟩

def t0 : DateTime := ⟨2024, 1, 1, 12, 0, 0⟩

def t1 : DateTime := ⟨2024, 1, 1, 12, 0, 1⟩

def docA : Doc := ⟨[("_id", "1"), ("x", "a")]⟩

def docB : Doc := ⟨[("_id", "2"), ("y", "b")]⟩

/-- A healthy collection. -/
def okColl : Collection := ⟨"orders", [docA], UnitFault.none⟩

/-- A second healthy collection. -/
def okColl2 : Collection := ⟨"users", [docB], UnitFault.none⟩

/-- A collection whose extraction raises a generic exception. -/
def failColl : Collection := ⟨"broken", [docA], UnitFault.raise UnitStage.find Exc.generic⟩

/-- A collection whose only field is the store identity field. -/
def onlyIdColl : Collection := ⟨"onlyid", [⟨[("_id", "1")]⟩], UnitFault.none⟩

/-- A collection whose upload raises a destination authentication error. -/
def authColl : Collection := ⟨"authunit", [docA], UnitFault.raise UnitStage.upload Exc.clientAuth⟩

/-! Claim theorems. -/

/-- C1: when processing a collection raises at any sub-stage so the per-unit
handler marks it failed, every collection after it is still processed in
order, the failure counter increments by exactly one for that collection,
and the run still reaches its final summary with exit code 0 -- one unit's
failure never aborts the batch. -/
theorem c1_single_failure_isolated (cfg : Config) (f : RunFaults) (t : DateTime)
    (pre post : List Collection) (c : Collection)
    (hok : setupOk cfg f) (hc : processUnit c = UnitOutcome.failed) :
    (run cfg f t (pre ++ c :: post)).outcomes
        = outcomesOf pre ++ UnitOutcome.failed :: outcomesOf post
    ∧ (run cfg f t (pre ++ c :: post)).failed
        = (outcomesOf pre).count UnitOutcome.failed + 1
          + (outcomesOf post).count UnitOutcome.failed
    ∧ (run cfg f t (pre ++ c :: post)).successful
        = (outcomesOf pre).count UnitOutcome.success
          + (outcomesOf post).count UnitOutcome.success
    ∧ (run cfg f t (pre ++ c :: post)).exitCode = 0 := by
  rw [run_setupOk cfg f t _ hok]
  refine ⟨?_, ?_, ?_, rfl⟩
  · simp [outcomesOf, hc]
  · simp [outcomesOf, hc, List.count_append, List.count_cons]
    omega
  · simp [outcomesOf, hc, List.count_append, List.count_cons]

/-- Witness for C1 at a concrete run of three collections whose middle one
fails during extraction. -/
theorem c1_single_failure_isolated_witness :
    setupOk cfgGood cleanFaults ∧ processUnit failColl = UnitOutcome.failed
    ∧ ((run cfgGood cleanFaults t0 ([okColl] ++ failColl :: [okColl2])).outcomes
          = outcomesOf [okColl] ++ UnitOutcome.failed :: outcomesOf [okColl2]
      ∧ (run cfgGood cleanFaults t0 ([okColl] ++ failColl :: [okColl2])).failed
          = (outcomesOf [okColl]).count UnitOutcome.failed + 1
            + (outcomesOf [okColl2]).count UnitOutcome.failed
      ∧ (run cfgGood cleanFaults t0 ([okColl] ++ failColl :: [okColl2])).successful
          = (outcomesOf [okColl]).count UnitOutcome.success
            + (outcomesOf [okColl2]).count UnitOutcome.success
      ∧ (run cfgGood cleanFaults t0 ([okColl] ++ failColl :: [okColl2])).exitCode = 0) :=
  ⟨by decide, by decide,
    c1_single_failure_isolated cfgGood cleanFaults t0 [okColl] [okColl2] failColl
      (by decide) (by decide)⟩

/-- C2 counterexample: a discovered collection whose single document carries
only the identity field has a nonzero document count (so K = 0 for this run
of N = 1), yet the run skips it: successful + failed = 0, not N - K = 1. -/
theorem c2_counterexample :
    (run cfgGood cleanFaults t0 [onlyIdColl]).successful
        + (run cfgGood cleanFaults t0 [onlyIdColl]).failed = 0
    ∧ ([onlyIdColl] : List Collection).length = 1
    ∧ (([onlyIdColl] : List Collection).filter (fun c => c.docs.length == 0)).length = 0 := by
  decide

/-- C2 (amended): successful + failed equals N minus the number of units the
loop short-circuits as skipped -- those whose document count is zero and
those whose frame is empty once the identity field is dropped -- and a
fault-free zero-document unit is always skipped, incrementing neither
counter. -/
theorem c2_success_failed_accounting (cfg : Config) (f : RunFaults) (t : DateTime)
    (cols : List Collection) (hok : setupOk cfg f) :
    (run cfg f t cols).successful + (run cfg f t cols).failed
        = cols.length
          - ((outcomesOf cols).count UnitOutcome.skippedEmpty
             + (outcomesOf cols).count UnitOutcome.skippedNoData)
    ∧ ∀ c ∈ cols, c.fault = UnitFault.none → c.docs = []
        → processUnit c = UnitOutcome.skippedEmpty := by
  constructor
  · rw [run_setupOk cfg f t cols hok]
    show (outcomesOf cols).count UnitOutcome.success
          + (outcomesOf cols).count UnitOutcome.failed
        = cols.length
          - ((outcomesOf cols).count UnitOutcome.skippedEmpty
             + (outcomesOf cols).count UnitOutcome.skippedNoData)
    have htot := count_outcomes_total (outcomesOf cols)
    have hlen : (outcomesOf cols).length = cols.length := by simp [outcomesOf]
    omega
  · intro c hc hf hd
    simp [processUnit, faultAt, hf, hd]

/-- Witness for C2 (amended) on a run holding one healthy collection, one
empty collection, and one failing collection. -/
theorem c2_success_failed_accounting_witness :
    setupOk cfgGood cleanFaults
    ∧ ((run cfgGood cleanFaults t0 [okColl, ⟨"emptycoll", [], UnitFault.none⟩, failColl]).successful
          + (run cfgGood cleanFaults t0 [okColl, ⟨"emptycoll", [], UnitFault.none⟩, failColl]).failed
        = ([okColl, ⟨"emptycoll", [], UnitFault.none⟩, failColl] : List Collection).length
          - ((outcomesOf [okColl, ⟨"emptycoll", [], UnitFault.none⟩, failColl]).count
                UnitOutcome.skippedEmpty
             + (outcomesOf [okColl, ⟨"emptycoll", [], UnitFault.none⟩, failColl]).count
                UnitOutcome.skippedNoData)
      ∧ ∀ c ∈ ([okColl, ⟨"emptycoll", [], UnitFault.none⟩, failColl] : List Collection),
          c.fault = UnitFault.none → c.docs = []
          → processUnit c = UnitOutcome.skippedEmpty) :=
  ⟨by decide,
    c2_success_failed_accounting cfgGood cleanFaults t0
      [okColl, ⟨"emptycoll", [], UnitFault.none⟩, failColl] (by decide)⟩

/-- C3: for every non-empty batch of documents, the serialized payload's
column set never contains the store-internal identity field, and every other
field of every record is retained as a column. -/
theorem c3_id_column_stripped (docs : List Doc) (hne : docs ≠ []) :
    idField ∉ payloadColumns docs
    ∧ ∀ d ∈ docs, ∀ kv ∈ d.fields, kv.1 ≠ idField → kv.1 ∈ payloadColumns docs := by
  constructor
  · intro h
    have h2 := (mem_dropId (dfColumns docs) idField).1 h
    exact h2.2 rfl
  · intro d hd kv hkv hne2
    refine (mem_dropId (dfColumns docs) kv.1).2 ⟨?_, hne2⟩
    exact (mem_dfColumns docs kv.1).2 ⟨d, hd, kv.2, by simpa using hkv⟩

/-- Witness for C3 on a batch of two documents that both carry the identity
field. -/
theorem c3_id_column_stripped_witness :
    ([docA, docB] : List Doc) ≠ []
    ∧ (idField ∉ payloadColumns [docA, docB]
      ∧ ∀ d ∈ ([docA, docB] : List Doc), ∀ kv ∈ d.fields,
          kv.1 ≠ idField → kv.1 ∈ payloadColumns [docA, docB]) :=
  ⟨by decide, c3_id_column_stripped [docA, docB] (by decide)⟩

/-- C10: with zero discovered collections the run still creates the
timestamped batch directory, executes zero loop iterations, writes no file,
reports a summary of 0 succeeded and 0 failed, and exits 0. -/
theorem c10_zero_collections (cfg : Config) (f : RunFaults) (t : DateTime)
    (hok : setupOk cfg f) :
    (run cfg f t []).exitCode = 0
    ∧ (run cfg f t []).dirCreated = true
    ∧ (run cfg f t []).directoryPath
        = Option.some (directoryNameStr cfg ++ "/" ++ strftime t)
    ∧ (run cfg f t []).outcomes = []
    ∧ (run cfg f t []).successful = 0
    ∧ (run cfg f t []).failed = 0
    ∧ (run cfg f t []).fs = [] := by
  rw [run_setupOk cfg f t [] hok]
  refine ⟨rfl, rfl, rfl, rfl, rfl, rfl, rfl⟩

/-- Witness for C10 at the concrete healthy configuration. -/
theorem c10_zero_collections_witness :
    setupOk cfgGood cleanFaults
    ∧ ((run cfgGood cleanFaults t0 []).exitCode = 0
      ∧ (run cfgGood cleanFaults t0 []).dirCreated = true
      ∧ (run cfgGood cleanFaults t0 []).directoryPath
          = Option.some (directoryNameStr cfgGood ++ "/" ++ strftime t0)
      ∧ (run cfgGood cleanFaults t0 []).outcomes = []
      ∧ (run cfgGood cleanFaults t0 []).successful = 0
      ∧ (run cfgGood cleanFaults t0 []).failed = 0
      ∧ (run cfgGood cleanFaults t0 []).fs = []) :=
  ⟨by decide, c10_zero_collections cfgGood cleanFaults t0 (by decide)⟩

/-- C4 counterexample: a destination authentication error raised while
uploading the first of two collections does not abort the run: the per-unit
handler counts it as that unit's failure, the second collection is still
processed, and the process exits 0. -/
theorem c4_counterexample :
    (run cfgGood cleanFaults t0 [authColl, okColl]).exitCode = 0
    ∧ (run cfgGood cleanFaults t0 [authColl, okColl]).failed = 1
    ∧ (run cfgGood cleanFaults t0 [authColl, okColl]).outcomes
        = [UnitOutcome.failed, UnitOutcome.success]
    ∧ authColl.fault = UnitFault.raise UnitStage.upload Exc.clientAuth := by
  decide

/-- C4 (amended): an authentication failure signalled by the destination
store before the per-collection loop (ADLS client construction, file-system
probe, or directory creation) aborts the whole run with exit code 1 and no
collection processed; one signalled during a collection's upload is caught
by the per-unit handler, counted as that collection's failure, and the
remaining collections are processed with the run exiting 0. -/
theorem c4_auth_failure_scoping (cfg cfg2 : Config) (f f2 : RunFaults) (t t2 : DateTime)
    (cols pre post : List Collection) (c : Collection)
    (hm : (missingVars cfg).isEmpty = true)
    (h1 : f.mongoClientCtor = Option.none) (h2 : f.mongoPing = Option.none)
    (h3 : f.listCollections = Option.none) (hauth : authAtSetup f)
    (hok : setupOk cfg2 f2)
    (hf : c.fault = UnitFault.raise UnitStage.upload Exc.clientAuth)
    (hd : c.docs ≠ []) (hcols : payloadColumns c.docs ≠ []) :
    ((run cfg f t cols).exitCode = 1 ∧ (run cfg f t cols).outcomes = []
      ∧ (run cfg f t cols).failed = 0)
    ∧ (processUnit c = UnitOutcome.failed
      ∧ (run cfg2 f2 t2 (pre ++ c :: post)).exitCode = 0
      ∧ (run cfg2 f2 t2 (pre ++ c :: post)).outcomes
          = outcomesOf pre ++ UnitOutcome.failed :: outcomesOf post
      ∧ (run cfg2 f2 t2 (pre ++ c :: post)).failed
          = (outcomesOf pre).count UnitOutcome.failed + 1
            + (outcomesOf post).count UnitOutcome.failed) := by
  have hb1 : c.docs.isEmpty = false := by
    cases h : c.docs
    · exact absurd h hd
    · simp [h]
  have hb2 : (payloadColumns c.docs).isEmpty = false := by
    cases h : payloadColumns c.docs
    · exact absurd h hcols
    · simp [h]
  have hb3 : ¬ c.docs.length = 0 := by
    cases h : c.docs
    · exact absurd h hd
    · simp [h]
  have hpc : processUnit c = UnitOutcome.failed := by
    simp [processUnit, faultAt, hf, hb1, hb2, hb3]
  constructor
  · rcases hauth with h4 | ⟨h4, h5 | ⟨h5, h6⟩⟩
    · simp [run, hm, h1, h2, h3, h4, abortWithClient]
    · simp [run, hm, h1, h2, h3, h4, h5, abortWithClient]
    · have hce : createDirOk f = false := by simp [createDirOk, h6]
      simp [run, hm, h1, h2, h3, h4, h5, hce]
  · rw [run_setupOk cfg2 f2 t2 _ hok]
    refine ⟨hpc, rfl, ?_, ?_⟩
    · simp [outcomesOf, hpc]
    · simp [outcomesOf, hpc, List.count_append, List.count_cons]
      omega

/-- Witness for C4 (amended): authentication failure at ADLS client
construction on one run, and during one collection's upload on another. -/
theorem c4_auth_failure_scoping_witness :
    (missingVars cfgGood).isEmpty = true
    ∧ authAtSetup authFaults ∧ setupOk cfgGood cleanFaults
    ∧ authColl.fault = UnitFault.raise UnitStage.upload Exc.clientAuth
    ∧ authColl.docs ≠ [] ∧ payloadColumns authColl.docs ≠ []
    ∧ (((run cfgGood authFaults t0 [okColl]).exitCode = 1
        ∧ (run cfgGood authFaults t0 [okColl]).outcomes = []
        ∧ (run cfgGood authFaults t0 [okColl]).failed = 0)
      ∧ (processUnit authColl = UnitOutcome.failed
        ∧ (run cfgGood cleanFaults t0 ([] ++ authColl :: [okColl])).exitCode = 0
        ∧ (run cfgGood cleanFaults t0 ([] ++ authColl :: [okColl])).outcomes
            = outcomesOf [] ++ UnitOutcome.failed :: outcomesOf [okColl]
        ∧ (run cfgGood cleanFaults t0 ([] ++ authColl :: [okColl])).failed
            = (outcomesOf []).count UnitOutcome.failed + 1
              + (outcomesOf [okColl]).count UnitOutcome.failed)) :=
  ⟨by decide, by decide, by decide, by decide, by decide, by decide,
    c4_auth_failure_scoping cfgGood cfgGood authFaults cleanFaults t0 t0
      [okColl] [] [okColl] authColl
      (by decide) (by decide) (by decide) (by decide) (by decide) (by decide)
      (by decide) (by decide) (by decide)⟩

/-- C5: when the batch directory already exists, the creation step absorbs
the ResourceExistsError: the run's observable result is identical to the one
of a run whose creation raised nothing, the run continues into the loop and
exits 0, and the failure counter only counts per-unit failures. -/
theorem c5_directory_exists_benign (cfg : Config) (f : RunFaults) (t : DateTime)
    (cols : List Collection)
    (hm : (missingVars cfg).isEmpty = true)
    (h1 : f.mongoClientCtor = Option.none) (h2 : f.mongoPing = Option.none)
    (h3 : f.listCollections = Option.none) (h4 : f.adlsConnect = Option.none)
    (h5 : f.fsProps = Option.none)
    (h6 : f.createDir = Option.some Exc.resourceExists) :
    run cfg f t cols
        = run cfg ⟨Option.none, Option.none, Option.none, Option.none, Option.none, Option.none⟩ t cols
    ∧ (run cfg f t cols).exitCode = 0
    ∧ (run cfg f t cols).failed = (outcomesOf cols).count UnitOutcome.failed := by
  have hok : setupOk cfg f := ⟨hm, h1, h2, h3, h4, h5, by simp [createDirOk, h6]⟩
  have hok2 : setupOk cfg ⟨Option.none, Option.none, Option.none, Option.none, Option.none, Option.none⟩ :=
    ⟨hm, rfl, rfl, rfl, rfl, rfl, rfl⟩
  rw [run_setupOk cfg f t cols hok, run_setupOk cfg _ t cols hok2]
  exact ⟨rfl, rfl, rfl⟩

/-- Witness for C5 at the concrete healthy configuration with the directory
reported as already existing. -/
theorem c5_directory_exists_benign_witness :
    (missingVars cfgGood).isEmpty = true
    ∧ existFaults.createDir = Option.some Exc.resourceExists
    ∧ (run cfgGood existFaults t0 [okColl]
          = run cfgGood ⟨Option.none, Option.none, Option.none, Option.none, Option.none, Option.none⟩ t0 [okColl]
      ∧ (run cfgGood existFaults t0 [okColl]).exitCode = 0
      ∧ (run cfgGood existFaults t0 [okColl]).failed
          = (outcomesOf [okColl]).count UnitOutcome.failed) :=
  ⟨by decide, by decide,
    c5_directory_exists_benign cfgGood existFaults t0 [okColl]
      (by decide) (by decide) (by decide) (by decide) (by decide) (by decide) (by decide)⟩

/-- C6: uploading a payload for the same collection name into the same batch
directory twice is idempotent -- the second write replaces the first and
leaves the same number of files -- while the files of the same collection
under two batch timestamps taken in different seconds have distinct paths
and never collide. -/
theorem c6_upload_idempotent_no_cross_batch_collision
    (fs : List (String × String)) (dn nm p1 p2 : String) (t t2 : DateTime)
    (hv : validDT t) (hv2 : validDT t2) (hne : t ≠ t2) :
    uploadData (uploadData fs (unitFilePath (dn ++ "/" ++ strftime t) nm) p1)
        (unitFilePath (dn ++ "/" ++ strftime t) nm) p2
      = uploadData fs (unitFilePath (dn ++ "/" ++ strftime t) nm) p2
    ∧ (uploadData (uploadData fs (unitFilePath (dn ++ "/" ++ strftime t) nm) p1)
        (unitFilePath (dn ++ "/" ++ strftime t) nm) p2).length
      = (uploadData fs (unitFilePath (dn ++ "/" ++ strftime t) nm) p2).length
    ∧ unitFilePath (dn ++ "/" ++ strftime t) nm
      ≠ unitFilePath (dn ++ "/" ++ strftime t2) nm :=
  ⟨uploadData_overwrite fs (unitFilePath (dn ++ "/" ++ strftime t) nm) p1 p2,
   congrArg List.length
     (uploadData_overwrite fs (unitFilePath (dn ++ "/" ++ strftime t) nm) p1 p2),
   unitFilePath_ne dn nm t t2 hv hv2 hne⟩

/-- Witness for C6 at a concrete empty destination, collection name, and two
instants one second apart. -/
theorem c6_upload_idempotent_no_cross_batch_collision_witness :
    validDT t0 ∧ validDT t1 ∧ t0 ≠ t1
    ∧ (uploadData (uploadData [] (unitFilePath ("mydb" ++ "/" ++ strftime t0) "orders") "a")
          (unitFilePath ("mydb" ++ "/" ++ strftime t0) "orders") "b"
        = uploadData [] (unitFilePath ("mydb" ++ "/" ++ strftime t0) "orders") "b"
      ∧ (uploadData (uploadData [] (unitFilePath ("mydb" ++ "/" ++ strftime t0) "orders") "a")
          (unitFilePath ("mydb" ++ "/" ++ strftime t0) "orders") "b").length
        = (uploadData [] (unitFilePath ("mydb" ++ "/" ++ strftime t0) "orders") "b").length
      ∧ unitFilePath ("mydb" ++ "/" ++ strftime t0) "orders"
        ≠ unitFilePath ("mydb" ++ "/" ++ strftime t1) "orders") :=
  ⟨by decide, by decide, by decide,
    c6_upload_idempotent_no_cross_batch_collision [] "mydb" "orders" "a" "b" t0 t1
      (by decide) (by decide) (by decide)⟩

/-- C7 counterexample: with the destination directory variable set to a
label other than the database name, the composed batch directory path has no
database-label component at all: it is directoryName slash timestamp, and no
choice of base makes it base slash databaseLabel slash timestamp. -/
theorem c7_counterexample :
    (run cfgDirSet cleanFaults t0 []).directoryPath
        = Option.some "data/20240101_120000"
    ∧ ¬ ∃ base : String,
        "data/20240101_120000" = base ++ "/" ++ "mydb" ++ "/" ++ strftime t0 := by
  constructor
  · decide
  · rintro ⟨base, hb⟩
    have hlen := congrArg String.length hb
    have e1 : ("data/20240101_120000" : String).length = 20 := by decide
    have e2 : ("/" : String).length = 1 := by decide
    have e3 : ("mydb" : String).length = 4 := by decide
    have e4 : (strftime t0).length = 15 := by decide
    rw [e1] at hlen
    simp only [String.length_append, e2, e3, e4] at hlen
    omega

/-- C7 (amended): the batch directory path relative to the destination
container is composed as directoryName slash timestamp with format
YYYYMMDD_HHMMSS at second granularity, where directoryName is the configured
destination directory when set and the database label otherwise; two runs
started in different seconds produce distinct, non-overlapping batch
directories. -/
theorem c7_directory_path_composition (cfg : Config) (f : RunFaults)
    (t t2 : DateTime) (cols : List Collection)
    (hok : setupOk cfg f) (hv : validDT t) (hv2 : validDT t2) (hne : t ≠ t2) :
    (run cfg f t cols).directoryPath
        = Option.some (directoryNameStr cfg ++ "/" ++ strftime t)
    ∧ directoryNameStr cfg ++ "/" ++ strftime t
      ≠ directoryNameStr cfg ++ "/" ++ strftime t2 := by
  refine ⟨?_, dirPath_ne (directoryNameStr cfg) t t2 hv hv2 hne⟩
  rw [run_setupOk cfg f t cols hok]

/-- Witness for C7 (amended) at the concrete healthy configuration and two
instants one second apart. -/
theorem c7_directory_path_composition_witness :
    setupOk cfgGood cleanFaults ∧ validDT t0 ∧ validDT t1 ∧ t0 ≠ t1
    ∧ ((run cfgGood cleanFaults t0 [okColl]).directoryPath
          = Option.some (directoryNameStr cfgGood ++ "/" ++ strftime t0)
      ∧ directoryNameStr cfgGood ++ "/" ++ strftime t0
        ≠ directoryNameStr cfgGood ++ "/" ++ strftime t1) :=
  ⟨by decide, by decide, by decide, by decide,
    c7_directory_path_composition cfgGood cleanFaults t0 t1 [okColl]
      (by decide) (by decide) (by decide) (by decide)⟩

/-- C8: the process exits 0 exactly when the preconditions hold and the
per-collection loop is reached and completes -- whatever mix of successes,
skips, and failures the collections produce -- and every other exit carries
code 1. -/
theorem c8_exit_code (cfg : Config) (f : RunFaults) (t : DateTime) (cols : List Collection) :
    ((run cfg f t cols).exitCode = 0 ↔ setupOk cfg f)
    ∧ ((run cfg f t cols).exitCode = 0 ∨ (run cfg f t cols).exitCode = 1) := by
  cases hm : (missingVars cfg).isEmpty <;>
  cases h1 : f.mongoClientCtor <;>
  cases h2 : f.mongoPing <;>
  cases h3 : f.listCollections <;>
  cases h4 : f.adlsConnect <;>
  cases h5 : f.fsProps <;>
  cases h6 : createDirOk f <;>
    simp_all [run, setupOk, abortBeforeClient, abortWithClient]

/-- C9: the source-store client is closed by the finally block exactly when
it was acquired, on every exit path -- normal completion, unit-scoped
failures, and each fatal abort -- and it is acquired exactly when no
required variable is missing and the client constructor did not raise. -/
theorem c9_client_released_iff_acquired (cfg : Config) (f : RunFaults)
    (t : DateTime) (cols : List Collection) :
    (run cfg f t cols).clientClosed = (run cfg f t cols).clientAcquired
    ∧ ((run cfg f t cols).clientAcquired = true
        ↔ ((missingVars cfg).isEmpty = true ∧ f.mongoClientCtor = Option.none)) := by
  cases hm : (missingVars cfg).isEmpty <;>
  cases h1 : f.mongoClientCtor <;>
  cases h2 : f.mongoPing <;>
  cases h3 : f.listCollections <;>
  cases h4 : f.adlsConnect <;>
  cases h5 : f.fsProps <;>
  cases h6 : createDirOk f <;>
    simp_all [run, abortBeforeClient, abortWithClient]

end Elt
